import Mathlib

/-!
# Verification of the uvc-gadget UVC control state machine

A shallow embedding of the UVC request-processing code in `lib/uvc.c` and of
the static test video source, together with theorems settling the behavioural
claims about format/frame/interval selection, streaming request responses and
the data-phase handling.

Machine integers are modelled as `Nat` (unsigned) or `Int` (signed), with an
explicit `% 2^32` (resp. `% 2^8`) wherever the C code's fixed-width arithmetic
can overflow or truncate.
-/

namespace UvcGadget

/-- `2^32`, the modulus of the C `unsigned int` arithmetic used throughout. -/
def u32Mod : Nat := 2 ^ 32

/-- The C cast `(unsigned int)x` of a signed `int x`: reduce modulo `2^32`.
In particular `toU32 (-1) = 2^32 - 1` (`UINT_MAX`). -/
def toU32 (x : Int) : Nat := (x % (u32Mod : Int)).toNat

/-- Modelled from the spec: the `clamp` macro from `tools.h` (a repository
header not under `src/`): restrict `val` to the interval `[lo, hi]`, returning
`lo` when `val` is below it and `hi` when `val` is above it. -/
def clamp (val lo hi : Nat) : Nat :=
  if val < lo then lo else if hi < val then hi else val

/-- `V4L2_PIX_FMT_YUYV = v4l2_fourcc('Y','U','Y','V')` (Linux header constant). -/
def V4L2_PIX_FMT_YUYV : Nat := 0x56595559

/-- `V4L2_PIX_FMT_MJPEG = v4l2_fourcc('M','J','P','G')` (Linux header constant). -/
def V4L2_PIX_FMT_MJPEG : Nat := 0x47504A4D

/-- UVC request and selector codes from `linux/usb/video.h`. -/
def UVC_SET_CUR : Nat := 0x01
def UVC_GET_CUR : Nat := 0x81
def UVC_GET_MIN : Nat := 0x82
def UVC_GET_MAX : Nat := 0x83
def UVC_GET_RES : Nat := 0x84
def UVC_GET_LEN : Nat := 0x85
def UVC_GET_INFO : Nat := 0x86
def UVC_GET_DEF : Nat := 0x87
def UVC_VS_PROBE_CONTROL : Nat := 0x01
def UVC_VS_COMMIT_CONTROL : Nat := 0x02

/-- USB `bRequestType` masks from `linux/usb/ch9.h`. -/
def USB_RECIP_INTERFACE : Nat := 0x01
def USB_TYPE_CLASS : Nat := 0x20

/-- One frame entry of the function configuration
(`struct uvc_function_config_frame`): width, height, and the interval list
(100 ns units) in declared order. -/
structure ConfigFrame where
  width : Nat
  height : Nat
  intervals : List Nat
deriving Repr, DecidableEq

/-- One format entry of the function configuration
(`struct uvc_function_config_format`): FourCC and frame list in declared
order. -/
structure ConfigFormat where
  fcc : Nat
  frames : List ConfigFrame
deriving Repr, DecidableEq

/-- The parts of `struct uvc_function_config` that the UVC request processing
reads: the streaming format list, the streaming endpoint's `wMaxPacketSize`,
and the control/streaming interface numbers. -/
structure FunctionConfig where
  formats : List ConfigFormat
  epWMaxPacketSize : Nat
  controlIntf : Nat
  streamingIntf : Nat
deriving Repr, DecidableEq

/-- `struct uvc_streaming_control` (34 bytes on the wire). -/
structure StreamingControl where
  bmHint : Nat
  bFormatIndex : Nat
  bFrameIndex : Nat
  dwFrameInterval : Nat
  wKeyFrameRate : Nat
  wPFrameRate : Nat
  wCompQuality : Nat
  wCompWindowSize : Nat
  wDelay : Nat
  dwMaxVideoFrameSize : Nat
  dwMaxPayloadTransferSize : Nat
  dwClockFrequency : Nat
  bmFramingInfo : Nat
  bPreferedVersion : Nat
  bMinVersion : Nat
  bMaxVersion : Nat
deriving Repr, DecidableEq

/-- The all-zero control block (`memset(ctrl, 0, sizeof *ctrl)`). -/
def StreamingControl.zero : StreamingControl :=
  ⟨0, 0, 0, 0, 0, 0, 0, 0, 0, 0, 0, 0, 0, 0, 0, 0⟩

/-- Placeholder frame used for the (undefined-behaviour) out-of-range array
access; every theorem below hypothesises index validity. -/
def defaultFrame : ConfigFrame := ⟨0, 0, []⟩

/-- Placeholder format for out-of-range access, as for `defaultFrame`. -/
def defaultFormat : ConfigFormat := ⟨0, []⟩

/-- `iformat = clamp((unsigned int)iformat, 1U, dev->fc->streaming.num_formats)`
(uvc.c line 148). -/
def clampedFormatIndex (fc : FunctionConfig) (iformat : Int) : Nat :=
  clamp (toU32 iformat) 1 fc.formats.length

/-- `format = &dev->fc->streaming.formats[iformat-1]` (uvc.c line 149). -/
def selectedFormat (fc : FunctionConfig) (iformat : Int) : ConfigFormat :=
  fc.formats.getD (clampedFormatIndex fc iformat - 1) defaultFormat

/-- `iframe = clamp((unsigned int)iframe, 1U, format->num_frames)`
(uvc.c line 151). -/
def clampedFrameIndex (fc : FunctionConfig) (iformat iframe : Int) : Nat :=
  clamp (toU32 iframe) 1 (selectedFormat fc iformat).frames.length

/-- `frame = &format->frames[iframe-1]` (uvc.c line 152). -/
def selectedFrame (fc : FunctionConfig) (iformat iframe : Int) : ConfigFrame :=
  (selectedFormat fc iformat).frames.getD
    (clampedFrameIndex fc iformat iframe - 1) defaultFrame

/-- The interval-selection loop of `uvc_fill_streaming_control`
(uvc.c lines 154-164): walk the interval list in declared order and take the
first entry `≥ ival`; if the loop ran off the end, take
`intervals[num_intervals-1]`, the last entry.  (On an empty list the C code
reads out of bounds; the `getLastD 0` default is never relied on by the
theorems, which hypothesise a non-empty list.) -/
def selectInterval (intervals : List Nat) (ival : Nat) : Nat :=
  match intervals.find? (fun x => decide (ival ≤ x)) with
  | some x => x
  | none => intervals.getLastD 0

/-- `uvc_fill_streaming_control` (uvc.c lines 132-190): clamp the format and
frame indices, select the interval, and populate a zeroed control block.
`dwMaxVideoFrameSize = frame->width * frame->height * 2` is computed in C
`unsigned int` arithmetic, hence the `% u32Mod`; for a FourCC other than
YUYV/MJPEG the `switch` leaves the field at its `memset` value 0. -/
def uvc_fill_streaming_control (fc : FunctionConfig) (iformat iframe : Int)
    (ival : Nat) : StreamingControl :=
  let format := selectedFormat fc iformat
  let frame := selectedFrame fc iformat iframe
  { StreamingControl.zero with
    bmHint := 1
    bFormatIndex := clampedFormatIndex fc iformat
    bFrameIndex := clampedFrameIndex fc iformat iframe
    dwFrameInterval := selectInterval frame.intervals ival
    dwMaxVideoFrameSize :=
      if format.fcc = V4L2_PIX_FMT_YUYV ∨ format.fcc = V4L2_PIX_FMT_MJPEG then
        frame.width * frame.height * 2 % u32Mod
      else 0
    dwMaxPayloadTransferSize := fc.epWMaxPacketSize
    bmFramingInfo := 3
    bPreferedVersion := 1
    bMaxVersion := 1 }

/-- The mutable state of `struct uvc_device` that the request processing
touches: the function configuration, the probe and commit blocks, the pending
control selector (`dev->control`), and the committed format parameters. -/
structure UvcDevice where
  fc : FunctionConfig
  probe : StreamingControl
  commit : StreamingControl
  control : Nat
  fcc : Nat
  width : Nat
  height : Nat
deriving Repr, DecidableEq

/-- The contents of `resp->data` (a 60-byte array the C code writes through
two views): either raw bytes written individually, or a whole
`struct uvc_streaming_control` written through the cast pointer. -/
inductive RespData where
  | bytes (bs : List Nat)
  | block (c : StreamingControl)
deriving Repr, DecidableEq

/-- `struct uvc_request_data`: a signed 32-bit `length` and the data buffer. -/
structure UvcRequestData where
  data : RespData
  length : Int
deriving Repr, DecidableEq

/-- The response as initialised by `uvc_events_process` before dispatch:
`memset(&resp, 0, sizeof resp); resp.length = -EL2HLT;` (`EL2HLT = 51`). -/
def initResp : UvcRequestData :=
  { data := .bytes (List.replicate 60 0), length := -51 }

/-- `struct usb_ctrlrequest` (the SETUP packet fields). -/
structure UsbCtrlRequest where
  bRequestType : Nat
  bRequest : Nat
  wValue : Nat
  wIndex : Nat
  wLength : Nat
deriving Repr, DecidableEq

/-- `uvc_events_process_control` (uvc.c lines 203-216): stub control
responder; sets `resp->data[0] = 0x03` (the remaining `memset` zeroes are
untouched) and `resp->length = len`, where `len` is the `uint8_t` parameter. -/
def uvc_events_process_control (len : Nat) (resp : UvcRequestData) :
    UvcRequestData :=
  { resp with data := .bytes (0x03 :: List.replicate 59 0), length := (len : Int) }

/-- `uvc_events_process_streaming` (uvc.c lines 218-305).  Returns the updated
device state and response.  An invalid control selector returns both
unchanged; otherwise `resp->length` is first set to `sizeof *ctrl = 34` and
the request code dispatched. -/
def uvc_events_process_streaming (dev : UvcDevice) (req cs : Nat)
    (resp : UvcRequestData) : UvcDevice × UvcRequestData :=
  if cs ≠ UVC_VS_PROBE_CONTROL ∧ cs ≠ UVC_VS_COMMIT_CONTROL then (dev, resp)
  else
    let resp := { resp with length := 34 }
    if req = UVC_SET_CUR then
      ({ dev with control := cs }, { resp with length := 34 })
    else if req = UVC_GET_CUR then
      let cur := if cs = UVC_VS_PROBE_CONTROL then dev.probe else dev.commit
      (dev, { resp with data := .block cur })
    else if req = UVC_GET_MIN ∨ req = UVC_GET_DEF then
      (dev, { resp with data := .block (uvc_fill_streaming_control dev.fc 1 1 0) })
    else if req = UVC_GET_MAX then
      let maxBlock := uvc_fill_streaming_control dev.fc (-1) (-1) (u32Mod - 1)
      (dev, { resp with data := .block maxBlock })
    else if req = UVC_GET_RES then
      (dev, { resp with data := .block StreamingControl.zero })
    else if req = UVC_GET_LEN then
      (dev, { resp with data := .bytes (0x00 :: 0x22 :: List.replicate 58 0),
                        length := 2 })
    else if req = UVC_GET_INFO then
      (dev, { resp with data := .bytes (0x03 :: List.replicate 59 0), length := 1 })
    else (dev, resp)

/-- `uvc_events_process_class` (uvc.c lines 307-323): class requests are
processed only when addressed to an interface; the interface number is
`wIndex & 0xff` and selects the control or streaming responder.  The control
responder's `len` parameter is `uint8_t`, so the 16-bit `wLength` is
truncated (`% 256`) at the call on line 320; the streaming responder's
selector is `wValue >> 8`. -/
def uvc_events_process_class (dev : UvcDevice) (ctrl : UsbCtrlRequest)
    (resp : UvcRequestData) : UvcDevice × UvcRequestData :=
  if ctrl.bRequestType % 32 ≠ USB_RECIP_INTERFACE then (dev, resp)
  else if ctrl.wIndex % 256 = dev.fc.controlIntf then
    (dev, uvc_events_process_control (ctrl.wLength % 256) resp)
  else if ctrl.wIndex % 256 = dev.fc.streamingIntf then
    uvc_events_process_streaming dev ctrl.bRequest (ctrl.wValue / 256) resp
  else (dev, resp)

/-- `uvc_events_process_setup` (uvc.c lines 325-349): clear `dev->control`,
then dispatch on `bRequestType & USB_TYPE_MASK` (`0x60`, i.e. bits 5-6).
Standard requests reach the no-op `uvc_events_process_standard`; only class
requests do any work. -/
def uvc_events_process_setup (dev : UvcDevice) (ctrl : UsbCtrlRequest)
    (resp : UvcRequestData) : UvcDevice × UvcRequestData :=
  let dev := { dev with control := 0 }
  if ctrl.bRequestType / 32 % 4 = USB_TYPE_CLASS / 32 then
    uvc_events_process_class dev ctrl resp
  else (dev, resp)

/-- The observable calls `uvc_events_process_data` makes into the stream
layer on the commit path.  The C code derives the frame rate from the
committed `dwFrameInterval` by double-precision arithmetic
(`fps = 1.0 / (dwFrameInterval / 10000000.0)`, uvc.c line 405); the embedding
records the interval the computation is fed rather than modelling IEEE-754. -/
inductive StreamCall where
  | setFormat (width height pixelformat sizeimage : Nat)
  | setFrameRateFromInterval (dwFrameInterval : Nat)
deriving Repr, DecidableEq

/-- `uvc_events_process_data` (uvc.c lines 351-408): route the data-phase
block to the probe or commit buffer per `dev->control`, refilling it through
`uvc_fill_streaming_control`; an unknown pending control returns with no state
change.  On the commit path the committed format/frame parameters are stored
in the device and pushed to the stream (`uvc_stream_set_format`,
`uvc_stream_set_frame_rate`), with `pixfmt.sizeimage` set only for MJPEG. -/
def uvc_events_process_data (dev : UvcDevice) (dataCtrl : StreamingControl) :
    UvcDevice × List StreamCall :=
  if dev.control = UVC_VS_PROBE_CONTROL then
    let target := uvc_fill_streaming_control dev.fc
      (dataCtrl.bFormatIndex : Int) (dataCtrl.bFrameIndex : Int)
      dataCtrl.dwFrameInterval
    ({ dev with probe := target }, [])
  else if dev.control = UVC_VS_COMMIT_CONTROL then
    let target := uvc_fill_streaming_control dev.fc
      (dataCtrl.bFormatIndex : Int) (dataCtrl.bFrameIndex : Int)
      dataCtrl.dwFrameInterval
    let format := dev.fc.formats.getD (target.bFormatIndex - 1) defaultFormat
    let frame := format.frames.getD (target.bFrameIndex - 1) defaultFrame
    ({ dev with commit := target, fcc := format.fcc, width := frame.width,
                height := frame.height },
     [.setFormat frame.width frame.height format.fcc
        (if format.fcc = V4L2_PIX_FMT_MJPEG then target.dwMaxVideoFrameSize else 0),
      .setFrameRateFromInterval target.dwFrameInterval])
  else (dev, [])

/-- The probe/commit initialisation of `uvc_events_init` (uvc.c lines
513-515): default both blocks to `uvc_fill_streaming_control(dev, ·, 1, 1, 0)`. -/
def uvc_events_init (dev : UvcDevice) : UvcDevice :=
  { dev with probe := uvc_fill_streaming_control dev.fc 1 1 0,
             commit := uvc_fill_streaming_control dev.fc 1 1 0 }

/-! ## The static test video source (test-source.c) -/

/-- `EINVAL` from `errno.h`. -/
def EINVAL : Nat := 22

/-- The mutable state of `struct test_source`. -/
structure TestSource where
  width : Nat
  height : Nat
  pixelformat : Nat
deriving Repr, DecidableEq

/-- The fields of `struct v4l2_pix_format` that `test_source_set_format`
reads. -/
structure V4l2PixFormat where
  width : Nat
  height : Nat
  pixelformat : Nat
deriving Repr, DecidableEq

/-- `test_source_set_format` (test-source.c): store the requested width,
height and pixelformat into the source state, then return `-EINVAL` if the
stored pixelformat is not YUYV, else 0.  Returns the updated state together
with the C return value. -/
def test_source_set_format (src : TestSource) (fmt : V4l2PixFormat) :
    TestSource × Int :=
  let src := { src with width := fmt.width, height := fmt.height,
                        pixelformat := fmt.pixelformat }
  if src.pixelformat ≠ V4L2_PIX_FMT_YUYV then (src, -(EINVAL : Int))
  else (src, 0)

/-! ## Properties of the interval-selection step -/

/-- The property C1 asserts of the selected interval `r`: `r` is the minimum
element of the interval set that is `≥ ival`, or the maximum element of the
set when no element is `≥ ival`. -/
def IsMinGEOrMax (l : List Nat) (ival r : Nat) : Prop :=
  ((∃ x ∈ l, ival ≤ x) → r ∈ l ∧ ival ≤ r ∧ ∀ y ∈ l, ival ≤ y → r ≤ y) ∧
  ((∀ x ∈ l, ¬ ival ≤ x) → r ∈ l ∧ ∀ y ∈ l, y ≤ r)

instance (l : List Nat) (ival r : Nat) : Decidable (IsMinGEOrMax l ival r) := by
  unfold IsMinGEOrMax; infer_instance

lemma getLastD_mem {α : Type} (l : List α) (d : α) (h : l ≠ []) :
    l.getLastD d ∈ l := by
  induction l generalizing d with
  | nil => exact absurd rfl h
  | cons a t ih =>
    rw [List.getLastD_cons]
    cases t with
    | nil => simp [List.getLastD]
    | cons b t' => exact List.mem_cons_of_mem a (ih a (by simp))

lemma getLastD_irrel {α : Type} (l : List α) (d d' : α) (h : l ≠ []) :
    l.getLastD d = l.getLastD d' := by
  cases l with
  | nil => exact absurd rfl h
  | cons a t => rw [List.getLastD_cons, List.getLastD_cons]

lemma sorted_le_getLastD (l : List Nat) (d : Nat)
    (hs : List.Sorted (· ≤ ·) l) : ∀ y ∈ l, y ≤ l.getLastD d := by
  induction l generalizing d with
  | nil => simp
  | cons a t ih =>
    intro y hy
    rw [List.getLastD_cons]
    rw [List.sorted_cons] at hs
    rcases List.mem_cons.mp hy with rfl | hyt
    · cases t with
      | nil => simp
      | cons b t' => exact hs.1 _ (getLastD_mem (b :: t') y (by simp))
    · exact ih a hs.2 y hyt

lemma find?_ge_min (l : List Nat) (ival r : Nat)
    (hs : List.Sorted (· ≤ ·) l)
    (h : l.find? (fun x => decide (ival ≤ x)) = some r) :
    r ∈ l ∧ ival ≤ r ∧ ∀ y ∈ l, ival ≤ y → r ≤ y := by
  induction l with
  | nil => simp at h
  | cons a t ih =>
    rw [List.sorted_cons] at hs
    by_cases ha : ival ≤ a
    · rw [List.find?_cons_of_pos _ (by simpa using ha)] at h
      obtain rfl : a = r := by simpa using h
      refine ⟨List.mem_cons_self a t, ha, ?_⟩
      intro y hy _
      rcases List.mem_cons.mp hy with rfl | hyt
      · exact le_refl y
      · exact hs.1 y hyt
    · rw [List.find?_cons_of_neg _ (by simpa using ha)] at h
      obtain ⟨hr, hir, hmin⟩ := ih hs.2 h
      refine ⟨List.mem_cons_of_mem a hr, hir, ?_⟩
      intro y hy hiy
      rcases List.mem_cons.mp hy with rfl | hyt
      · exact absurd hiy ha
      · exact hmin y hyt hiy

lemma selectInterval_sorted (l : List Nat) (ival : Nat) (hne : l ≠ [])
    (hs : List.Sorted (· ≤ ·) l) : IsMinGEOrMax l ival (selectInterval l ival) := by
  unfold selectInterval
  cases hfind : l.find? (fun x => decide (ival ≤ x)) with
  | some r =>
    obtain ⟨hr, hir, hmin⟩ := find?_ge_min l ival r hs hfind
    exact ⟨fun _ => ⟨hr, hir, hmin⟩, fun hall => absurd hir (hall r hr)⟩
  | none =>
    have hnone : ∀ x ∈ l, ¬ ival ≤ x := by
      intro x hx
      have := List.find?_eq_none.mp hfind x hx
      simpa using this
    refine ⟨fun ⟨x, hx, hix⟩ => absurd hix (hnone x hx), fun _ => ?_⟩
    exact ⟨getLastD_mem l 0 hne, sorted_le_getLastD l 0 hs⟩

/-! ## Concrete configurations used by witnesses and counterexamples -/

/-- A well-formed example configuration (one YUYV format, the spec's S1/S2
frames, sorted interval lists). -/
def fcExample : FunctionConfig :=
  { formats := [⟨V4L2_PIX_FMT_YUYV,
      [⟨640, 360, [166666, 200000, 333333, 500000]⟩,
       ⟨1280, 720, [166666, 200000, 333333, 500000]⟩]⟩],
    epWMaxPacketSize := 2048, controlIntf := 0, streamingIntf := 1 }

/-- A configuration whose interval list is not sorted ascending; the fill
algorithm's declared-order walk then differs from the min/max of the interval
set. -/
def fcUnsorted : FunctionConfig :=
  { formats := [⟨V4L2_PIX_FMT_YUYV, [⟨640, 360, [500000, 166666]⟩]⟩],
    epWMaxPacketSize := 1024, controlIntf := 0, streamingIntf := 1 }

/-- A configuration with the largest dimensions expressible in the 16-bit
`wWidth`/`wHeight` descriptor fields; `width*height*2` then exceeds `2^32`. -/
def fcBig : FunctionConfig :=
  { formats := [⟨V4L2_PIX_FMT_YUYV, [⟨65535, 65535, [333333]⟩]⟩],
    epWMaxPacketSize := 1024, controlIntf := 0, streamingIntf := 1 }

/-- A device over `fcExample`, initialised as by `uvc_open` (zeroed) followed
by `uvc_events_init`. -/
def devExample : UvcDevice :=
  uvc_events_init ⟨fcExample, .zero, .zero, 0, 0, 0, 0⟩

/-- A zero-initialised device over `fcUnsorted`. -/
def devUnsorted : UvcDevice := ⟨fcUnsorted, .zero, .zero, 0, 0, 0, 0⟩

/-! ## C1 — interval selection -/

/-- C1 (amended): for every invocation of the streaming-control fill algorithm
with requested interval `ival` on a frame whose interval list is non-empty and
sorted in ascending order, the `dwFrameInterval` written into the block is the
minimum element of that frame's interval set that is `≥ ival`, or the maximum
element of the set if no element is `≥ ival`. -/
theorem C1_interval_selection_sorted (fc : FunctionConfig) (iformat iframe : Int)
    (ival : Nat) (hne : (selectedFrame fc iformat iframe).intervals ≠ [])
    (hs : List.Sorted (· ≤ ·) (selectedFrame fc iformat iframe).intervals) :
    IsMinGEOrMax (selectedFrame fc iformat iframe).intervals ival
      (uvc_fill_streaming_control fc iformat iframe ival).dwFrameInterval :=
  selectInterval_sorted _ _ hne hs

/-- Witness for C1 at the example configuration, frame (1,2), requested
interval 250000 (the spec's scenario S3: the result is 333333). -/
theorem C1_witness :
    (selectedFrame fcExample 1 2).intervals ≠ [] ∧
    List.Sorted (· ≤ ·) (selectedFrame fcExample 1 2).intervals ∧
    IsMinGEOrMax (selectedFrame fcExample 1 2).intervals 250000
      (uvc_fill_streaming_control fcExample 1 2 250000).dwFrameInterval :=
  ⟨by decide, by decide,
   C1_interval_selection_sorted fcExample 1 2 250000 (by decide) (by decide)⟩

/-- C1 counterexample: with the unsorted interval list `[500000, 166666]` and
requested interval 0 the code writes 500000 (the first entry in declared
order), which is not the minimum element of the set that is `≥ 0` (166666 is
smaller and qualifies), so the claim as stated fails. -/
theorem C1_counterexample :
    (uvc_fill_streaming_control fcUnsorted 1 1 0).dwFrameInterval = 500000 ∧
    ¬ IsMinGEOrMax (selectedFrame fcUnsorted 1 1).intervals 0
      (uvc_fill_streaming_control fcUnsorted 1 1 0).dwFrameInterval := by
  decide

/-! ## C3 — maximum video frame size -/

/-- C3 (amended): for every format and frame selected by the fill algorithm,
whether the format's FourCC is YUYV or MJPEG, the filled block's
`dwMaxVideoFrameSize` equals frame width × frame height × 2 reduced modulo
`2^32` (the computation is C `unsigned int` arithmetic); in particular it
equals width × height × 2 exactly whenever that product fits in 32 bits. -/
theorem C3_max_video_frame_size (fc : FunctionConfig) (iformat iframe : Int)
    (ival : Nat)
    (hfcc : (selectedFormat fc iformat).fcc = V4L2_PIX_FMT_YUYV ∨
            (selectedFormat fc iformat).fcc = V4L2_PIX_FMT_MJPEG) :
    (uvc_fill_streaming_control fc iformat iframe ival).dwMaxVideoFrameSize
        = (selectedFrame fc iformat iframe).width *
          (selectedFrame fc iformat iframe).height * 2 % u32Mod ∧
    ((selectedFrame fc iformat iframe).width *
          (selectedFrame fc iformat iframe).height * 2 < u32Mod →
      (uvc_fill_streaming_control fc iformat iframe ival).dwMaxVideoFrameSize
        = (selectedFrame fc iformat iframe).width *
          (selectedFrame fc iformat iframe).height * 2) := by
  have hsz : (uvc_fill_streaming_control fc iformat iframe ival).dwMaxVideoFrameSize
      = if (selectedFormat fc iformat).fcc = V4L2_PIX_FMT_YUYV ∨
           (selectedFormat fc iformat).fcc = V4L2_PIX_FMT_MJPEG then
          (selectedFrame fc iformat iframe).width *
            (selectedFrame fc iformat iframe).height * 2 % u32Mod
        else 0 := rfl
  rw [hsz, if_pos hfcc]
  exact ⟨rfl, fun h => Nat.mod_eq_of_lt h⟩

/-- Witness for C3 at the example configuration (640×360 YUYV):
`dwMaxVideoFrameSize = 460800`. -/
theorem C3_witness :
    ((selectedFormat fcExample 1).fcc = V4L2_PIX_FMT_YUYV ∨
     (selectedFormat fcExample 1).fcc = V4L2_PIX_FMT_MJPEG) ∧
    ((uvc_fill_streaming_control fcExample 1 1 0).dwMaxVideoFrameSize
        = (selectedFrame fcExample 1 1).width *
          (selectedFrame fcExample 1 1).height * 2 % u32Mod ∧
     ((selectedFrame fcExample 1 1).width *
          (selectedFrame fcExample 1 1).height * 2 < u32Mod →
       (uvc_fill_streaming_control fcExample 1 1 0).dwMaxVideoFrameSize
        = (selectedFrame fcExample 1 1).width *
          (selectedFrame fcExample 1 1).height * 2)) :=
  ⟨by decide, C3_max_video_frame_size fcExample 1 1 0 (by decide)⟩

/-- C3 counterexample: with a 65535×65535 YUYV frame (the largest dimensions
the 16-bit `wWidth`/`wHeight` descriptor fields allow), the C `unsigned int`
product `width*height*2 = 8589672450` wraps modulo `2^32` to 4294705154, so
the filled block's `dwMaxVideoFrameSize` differs from width × height × 2. -/
theorem C3_counterexample :
    (selectedFrame fcBig 1 1).width = 65535 ∧
    (selectedFrame fcBig 1 1).height = 65535 ∧
    (selectedFormat fcBig 1).fcc = V4L2_PIX_FMT_YUYV ∧
    (uvc_fill_streaming_control fcBig 1 1 0).dwMaxVideoFrameSize = 4294705154 ∧
    (uvc_fill_streaming_control fcBig 1 1 0).dwMaxVideoFrameSize
      ≠ 65535 * 65535 * 2 := by
  decide

/-! ## C2 — GET_MAX clamps to the maxima -/

lemma toU32_neg_one : toU32 (-1) = u32Mod - 1 := by decide

lemma clamp_ge (v n : Nat) (h1 : 1 ≤ n) (h2 : n ≤ v) : clamp v 1 n = n := by
  unfold clamp
  split
  · omega
  · split
    · rfl
    · omega

lemma getD_last {α : Type} (l : List α) (d : α) (h : l ≠ []) :
    l.getD (l.length - 1) d = l.getLastD d := by
  induction l with
  | nil => exact absurd rfl h
  | cons a t ih =>
    cases t with
    | nil => rfl
    | cons b t' =>
      have hne : (b :: t') ≠ [] := by simp
      calc (a :: b :: t').getD ((a :: b :: t').length - 1) d
          = (b :: t').getD ((b :: t').length - 1) d := by
            simp [List.getD_cons_succ]
        _ = (b :: t').getLastD d := ih hne
        _ = (b :: t').getLastD a := getLastD_irrel _ d a hne
        _ = (a :: b :: t').getLastD d := (List.getLastD_cons a d (b :: t')).symm

lemma selectedFormat_neg_one (fc : FunctionConfig) (h : fc.formats ≠ [])
    (hn : fc.formats.length < u32Mod) :
    clampedFormatIndex fc (-1) = fc.formats.length ∧
    selectedFormat fc (-1) = fc.formats.getLastD defaultFormat := by
  have h1 : 1 ≤ fc.formats.length := List.length_pos.mpr h
  have hc : clampedFormatIndex fc (-1) = fc.formats.length := by
    unfold clampedFormatIndex
    rw [toU32_neg_one]
    exact clamp_ge _ _ h1 (by omega)
  refine ⟨hc, ?_⟩
  unfold selectedFormat
  rw [hc, getD_last _ _ h]

lemma selectedFrame_neg_one (fc : FunctionConfig) (h : fc.formats ≠ [])
    (hn : fc.formats.length < u32Mod)
    (hfr : (fc.formats.getLastD defaultFormat).frames ≠ [])
    (hnfr : (fc.formats.getLastD defaultFormat).frames.length < u32Mod) :
    clampedFrameIndex fc (-1) (-1)
        = (fc.formats.getLastD defaultFormat).frames.length ∧
    selectedFrame fc (-1) (-1)
        = (fc.formats.getLastD defaultFormat).frames.getLastD defaultFrame := by
  obtain ⟨hc, hsel⟩ := selectedFormat_neg_one fc h hn
  have h1 : 1 ≤ (fc.formats.getLastD defaultFormat).frames.length :=
    List.length_pos.mpr hfr
  have hcf : clampedFrameIndex fc (-1) (-1)
      = (fc.formats.getLastD defaultFormat).frames.length := by
    unfold clampedFrameIndex
    rw [hsel, toU32_neg_one]
    exact clamp_ge _ _ h1 (by omega)
  refine ⟨hcf, ?_⟩
  unfold selectedFrame
  rw [hsel, hcf, getD_last _ _ hfr]

lemma selectInterval_umax (l : List Nat) (hne : l ≠ [])
    (hs : List.Sorted (· ≤ ·) l) (hb : ∀ x ∈ l, x < u32Mod) :
    selectInterval l (u32Mod - 1) ∈ l ∧
    ∀ y ∈ l, y ≤ selectInterval l (u32Mod - 1) := by
  have h := selectInterval_sorted l (u32Mod - 1) hne hs
  by_cases hex : ∃ x ∈ l, u32Mod - 1 ≤ x
  · obtain ⟨hr, hir, _⟩ := h.1 hex
    refine ⟨hr, fun y hy => ?_⟩
    have := hb y hy
    omega
  · push_neg at hex
    exact h.2 fun x hx => not_le.mpr (hex x hx)

/-- C2 (amended): for every GET_MAX request on the streaming interface with
selector PROBE or COMMIT — given a configuration with at least one format
whose last format has at least one frame, whose last frame's interval list is
non-empty, sorted ascending, with all values (and the format/frame counts)
fitting in 32 bits — the response block is filled with the last format
(`bFormatIndex = num_formats`), the last frame of that format
(`bFrameIndex =` that format's `num_frames`), and the largest interval of that
frame, because the −1 index inputs, interpreted as unsigned, clamp to the
maxima.  (Without the sortedness hypothesis the code returns the *last*
interval in declared order, not the largest: see the counterexample.) -/
theorem C2_get_max_response (dev : UvcDevice) (cs : Nat) (resp : UvcRequestData)
    (hcs : cs = UVC_VS_PROBE_CONTROL ∨ cs = UVC_VS_COMMIT_CONTROL)
    (hformats : dev.fc.formats ≠ [])
    (hnf : dev.fc.formats.length < u32Mod)
    (hframes : (dev.fc.formats.getLastD defaultFormat).frames ≠ [])
    (hnfr : (dev.fc.formats.getLastD defaultFormat).frames.length < u32Mod)
    (hne : ((dev.fc.formats.getLastD defaultFormat).frames.getLastD
        defaultFrame).intervals ≠ [])
    (hs : List.Sorted (· ≤ ·) ((dev.fc.formats.getLastD
        defaultFormat).frames.getLastD defaultFrame).intervals)
    (hb : ∀ x ∈ ((dev.fc.formats.getLastD defaultFormat).frames.getLastD
        defaultFrame).intervals, x < u32Mod) :
    ∃ b : StreamingControl,
      (uvc_events_process_streaming dev UVC_GET_MAX cs resp).2.data
          = RespData.block b ∧
      b.bFormatIndex = dev.fc.formats.length ∧
      b.bFrameIndex = (dev.fc.formats.getLastD defaultFormat).frames.length ∧
      b.dwFrameInterval ∈ ((dev.fc.formats.getLastD defaultFormat).frames.getLastD
          defaultFrame).intervals ∧
      ∀ y ∈ ((dev.fc.formats.getLastD defaultFormat).frames.getLastD
          defaultFrame).intervals, y ≤ b.dwFrameInterval := by
  obtain ⟨hcfmt, hselfmt⟩ := selectedFormat_neg_one dev.fc hformats hnf
  obtain ⟨hcfr, hselfr⟩ := selectedFrame_neg_one dev.fc hformats hnf hframes hnfr
  have hint := selectInterval_umax _ hne hs hb
  refine ⟨uvc_fill_streaming_control dev.fc (-1) (-1) (u32Mod - 1),
    ?_, hcfmt, hcfr, ?_, ?_⟩
  · rcases hcs with rfl | rfl <;> rfl
  · show selectInterval (selectedFrame dev.fc (-1) (-1)).intervals (u32Mod - 1) ∈ _
    rw [hselfr]
    exact hint.1
  · show ∀ y ∈ _, y ≤ selectInterval (selectedFrame dev.fc (-1) (-1)).intervals
      (u32Mod - 1)
    rw [hselfr]
    exact hint.2

/-- Witness for C2: at the example device the GET_MAX(PROBE) response selects
format 1, frame 2 and interval 500000 (the spec's scenario S2). -/
theorem C2_witness :
    ((UVC_VS_PROBE_CONTROL = UVC_VS_PROBE_CONTROL ∨
      UVC_VS_PROBE_CONTROL = UVC_VS_COMMIT_CONTROL) ∧
     devExample.fc.formats ≠ [] ∧
     devExample.fc.formats.length < u32Mod ∧
     (devExample.fc.formats.getLastD defaultFormat).frames ≠ [] ∧
     (devExample.fc.formats.getLastD defaultFormat).frames.length < u32Mod ∧
     ((devExample.fc.formats.getLastD defaultFormat).frames.getLastD
        defaultFrame).intervals ≠ [] ∧
     List.Sorted (· ≤ ·) ((devExample.fc.formats.getLastD
        defaultFormat).frames.getLastD defaultFrame).intervals ∧
     (∀ x ∈ ((devExample.fc.formats.getLastD defaultFormat).frames.getLastD
        defaultFrame).intervals, x < u32Mod)) ∧
    ∃ b : StreamingControl,
      (uvc_events_process_streaming devExample UVC_GET_MAX UVC_VS_PROBE_CONTROL
          initResp).2.data = RespData.block b ∧
      b.bFormatIndex = devExample.fc.formats.length ∧
      b.bFrameIndex = (devExample.fc.formats.getLastD defaultFormat).frames.length ∧
      b.dwFrameInterval ∈ ((devExample.fc.formats.getLastD
          defaultFormat).frames.getLastD defaultFrame).intervals ∧
      ∀ y ∈ ((devExample.fc.formats.getLastD defaultFormat).frames.getLastD
          defaultFrame).intervals, y ≤ b.dwFrameInterval :=
  ⟨⟨Or.inl rfl, by decide, by decide, by decide, by decide, by decide, by decide,
    by decide⟩,
   C2_get_max_response devExample UVC_VS_PROBE_CONTROL initResp (Or.inl rfl)
     (by decide) (by decide) (by decide) (by decide) (by decide) (by decide)
     (by decide)⟩

/-- C2 counterexample: with the unsorted interval list `[500000, 166666]` the
GET_MAX response's `dwFrameInterval` is 166666, the *last* interval in
declared order, not the largest interval of the frame (500000 is larger), so
the claim as stated fails. -/
theorem C2_counterexample :
    ∃ b : StreamingControl,
      (uvc_events_process_streaming devUnsorted UVC_GET_MAX UVC_VS_PROBE_CONTROL
          initResp).2.data = RespData.block b ∧
      b.dwFrameInterval = 166666 ∧
      500000 ∈ ((devUnsorted.fc.formats.getLastD defaultFormat).frames.getLastD
          defaultFrame).intervals ∧
      ¬ (∀ y ∈ ((devUnsorted.fc.formats.getLastD defaultFormat).frames.getLastD
          defaultFrame).intervals, y ≤ b.dwFrameInterval) :=
  ⟨uvc_fill_streaming_control devUnsorted.fc (-1) (-1) (u32Mod - 1),
   rfl, by decide, by decide, by decide⟩

/-! ## C5 — GET_LEN response -/

/-- C5 (amended): for every GET_LEN request on the streaming interface with
selector PROBE or COMMIT, the response has length exactly 2 and its two bytes
are 0x00 followed by 0x22 — the value 34 encoded in big-endian order, not
little-endian (read little-endian the bytes give 0x2200 = 8704). -/
theorem C5_get_len (dev : UvcDevice) (cs : Nat) (resp : UvcRequestData)
    (hcs : cs = UVC_VS_PROBE_CONTROL ∨ cs = UVC_VS_COMMIT_CONTROL) :
    (uvc_events_process_streaming dev UVC_GET_LEN cs resp).2.length = 2 ∧
    ∃ rest : List Nat,
      (uvc_events_process_streaming dev UVC_GET_LEN cs resp).2.data
          = RespData.bytes (0x00 :: 0x22 :: rest) ∧
      0x00 * 256 + 0x22 = 34 := by
  rcases hcs with rfl | rfl <;> exact ⟨rfl, List.replicate 58 0, rfl, rfl⟩

/-- Witness for C5 at the example device with the PROBE selector. -/
theorem C5_witness :
    (UVC_VS_PROBE_CONTROL = UVC_VS_PROBE_CONTROL ∨
     UVC_VS_PROBE_CONTROL = UVC_VS_COMMIT_CONTROL) ∧
    ((uvc_events_process_streaming devExample UVC_GET_LEN UVC_VS_PROBE_CONTROL
        initResp).2.length = 2 ∧
     ∃ rest : List Nat,
       (uvc_events_process_streaming devExample UVC_GET_LEN UVC_VS_PROBE_CONTROL
          initResp).2.data = RespData.bytes (0x00 :: 0x22 :: rest) ∧
       0x00 * 256 + 0x22 = 34) :=
  ⟨Or.inl rfl,
   C5_get_len devExample UVC_VS_PROBE_CONTROL initResp (Or.inl rfl)⟩

/-- C5 counterexample: the two response bytes of GET_LEN are 0x00 then 0x22;
decoded in little-endian order they give 0x00 + 256·0x22 = 8704 ≠ 34, so they
do not encode 34 in little-endian order as claimed. -/
theorem C5_counterexample :
    ∃ b0 b1 : Nat, ∃ rest : List Nat,
      (uvc_events_process_streaming devExample UVC_GET_LEN UVC_VS_PROBE_CONTROL
          initResp).2.data = RespData.bytes (b0 :: b1 :: rest) ∧
      b0 + 256 * b1 ≠ 34 :=
  ⟨0x00, 0x22, List.replicate 58 0, rfl, by decide⟩

/-! ## C6 — control-interface stub responder -/

/-- C6 (amended): for every class-typed SETUP request addressed to the control
interface, the produced response has first byte 0x03 and response length equal
to the request's wLength reduced modulo 256: the 16-bit wLength is truncated
through the control responder's `uint8_t len` parameter, so the length equals
wLength exactly when wLength < 256. -/
theorem C6_control_stub (dev : UvcDevice) (ctrl : UsbCtrlRequest)
    (resp : UvcRequestData)
    (htype : ctrl.bRequestType / 32 % 4 = USB_TYPE_CLASS / 32)
    (hrecip : ctrl.bRequestType % 32 = USB_RECIP_INTERFACE)
    (hintf : ctrl.wIndex % 256 = dev.fc.controlIntf) :
    ∃ rest : List Nat,
      (uvc_events_process_setup dev ctrl resp).2.data
          = RespData.bytes (0x03 :: rest) ∧
      (uvc_events_process_setup dev ctrl resp).2.length
          = ((ctrl.wLength % 256 : Nat) : Int) := by
  refine ⟨List.replicate 59 0, ?_, ?_⟩ <;>
    simp [uvc_events_process_setup, uvc_events_process_class,
      uvc_events_process_control, htype, hrecip, hintf]

/-- Witness for C6: a class GET_CUR request to the control interface with
wLength = 10 yields first byte 0x03 and length 10. -/
theorem C6_witness :
    ((0xA1 : Nat) / 32 % 4 = USB_TYPE_CLASS / 32 ∧
     (0xA1 : Nat) % 32 = USB_RECIP_INTERFACE ∧
     (0 : Nat) % 256 = devExample.fc.controlIntf) ∧
    ∃ rest : List Nat,
      (uvc_events_process_setup devExample ⟨0xA1, 0x81, 0x0100, 0, 10⟩
          initResp).2.data = RespData.bytes (0x03 :: rest) ∧
      (uvc_events_process_setup devExample ⟨0xA1, 0x81, 0x0100, 0, 10⟩
          initResp).2.length = (((10 : Nat) % 256 : Nat) : Int) :=
  ⟨⟨by decide, by decide, by decide⟩,
   C6_control_stub devExample ⟨0xA1, 0x81, 0x0100, 0, 10⟩ initResp
     (by decide) (by decide) (by decide)⟩

/-- C6 counterexample: a class SETUP request to the control interface with
wLength = 256 produces response length 0, not 256 — the claim fails because
wLength is truncated to the control responder's `uint8_t` parameter. -/
theorem C6_counterexample :
    (uvc_events_process_setup devExample ⟨0xA1, 0x81, 0x0100, 0, 256⟩
        initResp).2.length = 0 ∧
    (uvc_events_process_setup devExample ⟨0xA1, 0x81, 0x0100, 0, 256⟩
        initResp).2.length ≠ (256 : Int) := by
  decide

/-! ## C7 — DATA with no pending control -/

/-- C7 (confirmed): for every DATA event that arrives while `dev->control` is
neither PROBE nor COMMIT, the event is discarded and the state is unchanged —
neither the probe block nor the commit block is modified, and no format or
frame-rate call reaches the stream. -/
theorem C7_data_without_pending (dev : UvcDevice) (dataCtrl : StreamingControl)
    (h1 : dev.control ≠ UVC_VS_PROBE_CONTROL)
    (h2 : dev.control ≠ UVC_VS_COMMIT_CONTROL) :
    uvc_events_process_data dev dataCtrl = (dev, []) := by
  unfold uvc_events_process_data
  rw [if_neg h1, if_neg h2]

/-- A host DATA payload carrying format 1, frame 2, interval 250000 (all
other fields zero). -/
def dataPayloadS3 : StreamingControl :=
  ⟨0, 1, 2, 250000, 0, 0, 0, 0, 0, 0, 0, 0, 0, 0, 0, 0⟩

/-- Witness for C7: the freshly initialised device (`control = 0`) discards a
DATA payload carrying format 1, frame 2, interval 250000. -/
theorem C7_witness :
    (devExample.control ≠ UVC_VS_PROBE_CONTROL ∧
     devExample.control ≠ UVC_VS_COMMIT_CONTROL) ∧
    uvc_events_process_data devExample dataPayloadS3 = (devExample, []) :=
  ⟨⟨by decide, by decide⟩,
   C7_data_without_pending devExample dataPayloadS3 (by decide) (by decide)⟩

/-! ## C8 — GET_MIN / GET_MAX / GET_CUR round trip after initialization -/

/-- The device state after `uvc_open` (which zero-fills the structure) and
`uvc_events_init` (which defaults probe and commit). -/
def initialDevice (fc : FunctionConfig) : UvcDevice :=
  uvc_events_init ⟨fc, StreamingControl.zero, StreamingControl.zero, 0, 0, 0, 0⟩

/-- A class-typed streaming-interface SETUP packet with the PROBE selector:
`bmRequestType = 0xA1` (device-to-host, class, interface recipient),
`wValue = UVC_VS_PROBE_CONTROL << 8`, `wIndex` the interface number. -/
def probeStreamingRequest (intf req : Nat) : UsbCtrlRequest :=
  ⟨0xA1, req, 0x0100, intf, 26⟩

/-- Processing one SETUP event end to end, with the response freshly reset as
`uvc_events_process` does before dispatching. -/
def streamingSetupStep (dev : UvcDevice) (intf req : Nat) :
    UvcDevice × UvcRequestData :=
  uvc_events_process_setup dev (probeStreamingRequest intf req) initResp

lemma clamp_one (n : Nat) (h : 1 ≤ n) : clamp 1 1 n = 1 := by
  unfold clamp
  split
  · omega
  · split
    · omega
    · rfl

lemma fill_one_one_zero (fc : FunctionConfig) (fmt : ConfigFormat)
    (fr : ConfigFrame) (i0 : Nat) (fmts : List ConfigFormat)
    (frs : List ConfigFrame) (ivs : List Nat)
    (hfc : fc.formats = fmt :: fmts) (hfrm : fmt.frames = fr :: frs)
    (hiv : fr.intervals = i0 :: ivs) :
    (uvc_fill_streaming_control fc 1 1 0).bFormatIndex = 1 ∧
    (uvc_fill_streaming_control fc 1 1 0).bFrameIndex = 1 ∧
    (uvc_fill_streaming_control fc 1 1 0).dwFrameInterval = i0 := by
  have ht : toU32 1 = 1 := by decide
  have hc1 : clampedFormatIndex fc 1 = 1 := by
    unfold clampedFormatIndex
    rw [ht]
    exact clamp_one _ (by rw [hfc]; simp)
  have hsel : selectedFormat fc 1 = fmt := by
    unfold selectedFormat
    rw [hc1, hfc]
    rfl
  have hc2 : clampedFrameIndex fc 1 1 = 1 := by
    unfold clampedFrameIndex
    rw [hsel, ht]
    exact clamp_one _ (by rw [hfrm]; simp)
  have hself : selectedFrame fc 1 1 = fr := by
    unfold selectedFrame
    rw [hsel, hc2, hfrm]
    rfl
  refine ⟨hc1, hc2, ?_⟩
  show selectInterval (selectedFrame fc 1 1).intervals 0 = i0
  rw [hself, hiv]
  unfold selectInterval
  rw [List.find?_cons_of_pos _ (by simp)]

lemma process_streaming_dev_unchanged (dev : UvcDevice) (req cs : Nat)
    (resp : UvcRequestData) (hreq : req ≠ UVC_SET_CUR) :
    (uvc_events_process_streaming dev req cs resp).1 = dev := by
  unfold uvc_events_process_streaming
  split_ifs <;> rfl

lemma setup_routes_streaming (dev : UvcDevice) (req intf : Nat)
    (resp : UvcRequestData) (hintf : intf = dev.fc.streamingIntf)
    (hsi : intf < 256) (hdiff : dev.fc.controlIntf ≠ intf) :
    uvc_events_process_setup dev (probeStreamingRequest intf req) resp
      = uvc_events_process_streaming { dev with control := 0 } req
          UVC_VS_PROBE_CONTROL resp := by
  have hmod : intf % 256 = intf := Nat.mod_eq_of_lt hsi
  simp only [uvc_events_process_setup, probeStreamingRequest,
    uvc_events_process_class, USB_TYPE_CLASS, USB_RECIP_INTERFACE,
    UVC_VS_PROBE_CONTROL, hmod]
  norm_num
  rw [if_neg fun h => hdiff h.symm, if_pos hintf]

/-- C8 (confirmed): after initialization (probe and commit both filled from
`format=1, frame=1, interval=0`), issuing GET_MIN, then GET_MAX, then GET_CUR
on the PROBE selector of the streaming interface returns the default block
with `bFormatIndex = 1`, `bFrameIndex = 1` and `dwFrameInterval` equal to the
first interval of format 1's frame 1 — GET_MIN and GET_MAX fill only the
response buffer and leave the stored probe block unchanged. -/
theorem C8_get_min_max_cur_default (fc : FunctionConfig) (fmt : ConfigFormat)
    (fr : ConfigFrame) (i0 : Nat) (fmts : List ConfigFormat)
    (frs : List ConfigFrame) (ivs : List Nat)
    (hfc : fc.formats = fmt :: fmts) (hfrm : fmt.frames = fr :: frs)
    (hiv : fr.intervals = i0 :: ivs) (hsi : fc.streamingIntf < 256)
    (hdiff : fc.controlIntf ≠ fc.streamingIntf) :
    (streamingSetupStep (initialDevice fc) fc.streamingIntf UVC_GET_MIN).1.probe
        = (initialDevice fc).probe ∧
    (streamingSetupStep (streamingSetupStep (initialDevice fc) fc.streamingIntf
        UVC_GET_MIN).1 fc.streamingIntf UVC_GET_MAX).1.probe
        = (initialDevice fc).probe ∧
    (streamingSetupStep (streamingSetupStep (streamingSetupStep
        (initialDevice fc) fc.streamingIntf UVC_GET_MIN).1 fc.streamingIntf
        UVC_GET_MAX).1 fc.streamingIntf UVC_GET_CUR).2.data
        = RespData.block ((initialDevice fc).probe) ∧
    (initialDevice fc).probe.bFormatIndex = 1 ∧
    (initialDevice fc).probe.bFrameIndex = 1 ∧
    (initialDevice fc).probe.dwFrameInterval = i0 := by
  have hstep : ∀ (dev : UvcDevice) (req : Nat), dev.fc = fc →
      req ≠ UVC_SET_CUR →
      (streamingSetupStep dev fc.streamingIntf req).1
        = { dev with control := 0 } := by
    intro dev req hfceq hreq
    unfold streamingSetupStep
    rw [setup_routes_streaming dev req fc.streamingIntf initResp
      (by rw [hfceq]) hsi (by rw [hfceq]; exact hdiff)]
    exact process_streaming_dev_unchanged _ _ _ _ hreq
  have hD : ({ initialDevice fc with control := 0 }) = initialDevice fc := rfl
  have h1 := hstep (initialDevice fc) UVC_GET_MIN rfl (by decide)
  rw [hD] at h1
  have h2 := hstep (initialDevice fc) UVC_GET_MAX rfl (by decide)
  rw [hD] at h2
  have hfill := fill_one_one_zero fc fmt fr i0 fmts frs ivs hfc hfrm hiv
  refine ⟨by rw [h1], by rw [h1, h2], ?_, hfill.1, hfill.2.1, hfill.2.2⟩
  rw [h1, h2]
  unfold streamingSetupStep
  rw [setup_routes_streaming (initialDevice fc) UVC_GET_CUR fc.streamingIntf
    initResp rfl hsi hdiff, hD]
  rfl

/-- Witness for C8 at the example configuration: the final GET_CUR(PROBE)
response is the default block `format=1, frame=1, interval=166666`. -/
theorem C8_witness :
    (fcExample.formats = ⟨V4L2_PIX_FMT_YUYV,
        [⟨640, 360, [166666, 200000, 333333, 500000]⟩,
         ⟨1280, 720, [166666, 200000, 333333, 500000]⟩]⟩ :: [] ∧
     fcExample.streamingIntf < 256 ∧
     fcExample.controlIntf ≠ fcExample.streamingIntf) ∧
    ((streamingSetupStep (initialDevice fcExample) fcExample.streamingIntf
        UVC_GET_MIN).1.probe = (initialDevice fcExample).probe ∧
     (streamingSetupStep (streamingSetupStep (initialDevice fcExample)
        fcExample.streamingIntf UVC_GET_MIN).1 fcExample.streamingIntf
        UVC_GET_MAX).1.probe = (initialDevice fcExample).probe ∧
     (streamingSetupStep (streamingSetupStep (streamingSetupStep
        (initialDevice fcExample) fcExample.streamingIntf UVC_GET_MIN).1
        fcExample.streamingIntf UVC_GET_MAX).1 fcExample.streamingIntf
        UVC_GET_CUR).2.data = RespData.block ((initialDevice fcExample).probe) ∧
     (initialDevice fcExample).probe.bFormatIndex = 1 ∧
     (initialDevice fcExample).probe.bFrameIndex = 1 ∧
     (initialDevice fcExample).probe.dwFrameInterval = 166666) :=
  ⟨⟨rfl, by decide, by decide⟩,
   C8_get_min_max_cur_default fcExample
     ⟨V4L2_PIX_FMT_YUYV,
        [⟨640, 360, [166666, 200000, 333333, 500000]⟩,
         ⟨1280, 720, [166666, 200000, 333333, 500000]⟩]⟩
     ⟨640, 360, [166666, 200000, 333333, 500000]⟩ 166666
     [] [⟨1280, 720, [166666, 200000, 333333, 500000]⟩]
     [200000, 333333, 500000] rfl rfl rfl (by decide) (by decide)⟩

/-! ## C9, C10 — the static test source's set_format -/

/-- C9 (confirmed): for every requested pixel format, the static test video
source's set_format operation returns `-EINVAL` exactly when the FourCC is not
YUYV, and success (0) when it is YUYV. -/
theorem C9_set_format_result (src : TestSource) (fmt : V4l2PixFormat) :
    (test_source_set_format src fmt).2
      = if fmt.pixelformat = V4L2_PIX_FMT_YUYV then 0 else -(EINVAL : Int) := by
  unfold test_source_set_format
  by_cases h : fmt.pixelformat = V4L2_PIX_FMT_YUYV <;> simp [h]

/-- C10 (confirmed): `test_source_set_format` stores the requested width,
height and pixelformat into the source state before validating the FourCC, so
even when it rejects a non-YUYV format with `-EINVAL`, the source's stored
format has been overwritten by the rejected request — the error path does not
preserve the previous state. -/
theorem C10_set_format_overwrites_on_failure (src : TestSource)
    (fmt : V4l2PixFormat) (h : fmt.pixelformat ≠ V4L2_PIX_FMT_YUYV) :
    (test_source_set_format src fmt).2 = -(EINVAL : Int) ∧
    (test_source_set_format src fmt).1
      = ⟨fmt.width, fmt.height, fmt.pixelformat⟩ := by
  unfold test_source_set_format
  simp [h]

/-- Witness for C10: rejecting an MJPEG request still overwrites a source that
previously held 640×360 YUYV. -/
theorem C10_witness :
    ((⟨640, 360, V4L2_PIX_FMT_MJPEG⟩ : V4l2PixFormat).pixelformat
        ≠ V4L2_PIX_FMT_YUYV) ∧
    ((test_source_set_format ⟨640, 360, V4L2_PIX_FMT_YUYV⟩
        ⟨640, 360, V4L2_PIX_FMT_MJPEG⟩).2 = -(EINVAL : Int) ∧
     (test_source_set_format ⟨640, 360, V4L2_PIX_FMT_YUYV⟩
        ⟨640, 360, V4L2_PIX_FMT_MJPEG⟩).1
        = ⟨640, 360, V4L2_PIX_FMT_MJPEG⟩) :=
  ⟨by decide,
   C10_set_format_overwrites_on_failure ⟨640, 360, V4L2_PIX_FMT_YUYV⟩
     ⟨640, 360, V4L2_PIX_FMT_MJPEG⟩ (by decide)⟩

end UvcGadget
